import Mathlib

/-!
Shallow embedding of the EPN.bz webhook ingestion service
(`app/partners/epn_bz.py`, `app/webhook_processor.py`, `app/database.py`).

Payload values are modeled as JSON scalars (`PyVal`); compound values
(arrays / objects) are omitted from the value type — every function below
treats them as unparsable, which matches the `TypeError` branches of the
source.  Python `float` parsing is modeled over `Rat`; the `inf` / `nan`
literals and digit underscores accepted by CPython are outside the model
(they are treated as unparsable here).
-/

namespace WebHook

/-- A Python/JSON scalar value as it appears in a parsed webhook payload. -/
inductive PyVal where
  | str (s : String)
  | int (n : Int)
  | float (q : Rat)
  | bool (b : Bool)
  | none
deriving DecidableEq, Repr

/-- Python truthiness (`bool(v)`) for the scalar values of the model. -/
def PyVal.truthy : PyVal → Bool
  | .str s => !s.isEmpty
  | .int n => n != 0
  | .float q => q != 0
  | .bool b => b
  | .none => false

/-- Python `str(v)`, as used by the f-string that synthesizes `uniq_id`.
Rendering of non-string scalars is simplified (claims only exercise the
string case). -/
def PyVal.pyStr : PyVal → String
  | .str s => s
  | .int n => toString n
  | .float q => toString q
  | .bool b => if b then "True" else "False"
  | .none => "None"

/-- Python `s.lower()` (ASCII case folding; the statuses in play are
ASCII). -/
def pyLower (s : String) : String :=
  String.mk (s.data.map Char.toLower)

/-- Python `s.strip()`: leading and trailing whitespace removed. -/
def stripChars (cs : List Char) : List Char :=
  ((cs.dropWhile Char.isWhitespace).reverse.dropWhile Char.isWhitespace).reverse

/-- Does `hay` start with `needle`? -/
def charsStartWith : List Char → List Char → Bool
  | [], _ => true
  | _ :: _, [] => false
  | a :: as, b :: bs => a == b && charsStartWith as bs

/-- Does `hay` contain `needle` as a contiguous run? -/
def charsHaveSub (needle : List Char) : List Char → Bool
  | [] => charsStartWith needle []
  | c :: t => charsStartWith needle (c :: t) || charsHaveSub needle t

/-- A parsed payload: a Python dict from field name to value. -/
def Dict := List (String × PyVal)
deriving DecidableEq, Repr

/-- Dictionary lookup returning the first binding for `k`, if any
(`k in data` / the raw presence of the key). -/
def dictGet (d : Dict) (k : String) : Option PyVal :=
  (List.find? (fun p => p.1 = k) d).map (fun p => p.2)

/-- Python `data.get(k)`: the bound value, or `None` when the key is absent. -/
def pyGet (d : Dict) (k : String) : PyVal :=
  (dictGet d k).getD .none

/-- Python `data.get(k, default)`: the bound value (even when it is `None`),
or `default` when the key is absent. -/
def pyGetD (d : Dict) (k : String) (default : PyVal) : PyVal :=
  (dictGet d k).getD default

/-- Splits a leading run of decimal digits off a character list. -/
def splitDigits : List Char → List Char × List Char
  | [] => ([], [])
  | c :: cs =>
    if c.isDigit then
      let (ds, rest) := splitDigits cs
      (c :: ds, rest)
    else ([], c :: cs)

/-- Numeric value of a digit run. -/
def digitsToNat (cs : List Char) : Nat :=
  cs.foldl (fun a c => a * 10 + (c.toNat - 48)) 0

/-- Strips an optional leading sign, returning whether it was `-`. -/
def splitSign : List Char → Bool × List Char
  | '+' :: cs => (false, cs)
  | '-' :: cs => (true, cs)
  | cs => (false, cs)

/-- The unsigned mantissa of a float literal: `digits`, `digits.digits`,
`digits.` or `.digits`. -/
def parseMantissa (cs : List Char) : Option (Rat × List Char) :=
  let (ip, rest) := splitDigits cs
  match rest with
  | '.' :: rest2 =>
    let (fp, rest3) := splitDigits rest2
    if ip.isEmpty && fp.isEmpty then Option.none
    else some ((digitsToNat ip : Rat) + (digitsToNat fp : Rat) / ((10 : Rat) ^ fp.length), rest3)
  | _ =>
    if ip.isEmpty then Option.none else some ((digitsToNat ip : Rat), rest)

/-- Python `float(s)` on a string, over `Rat`. -/
def pyFloatOfString (s : String) : Option Rat :=
  let cs := stripChars s.data
  let (neg, cs2) := splitSign cs
  match parseMantissa cs2 with
  | Option.none => Option.none
  | some (m, rest) =>
    let signed := if neg then -m else m
    match rest with
    | [] => some signed
    | 'e' :: r =>
      let (eneg, r2) := splitSign r
      let (ds, r3) := splitDigits r2
      if ds.isEmpty || !r3.isEmpty then Option.none
      else some (if eneg then signed / (10 : Rat) ^ digitsToNat ds
                 else signed * (10 : Rat) ^ digitsToNat ds)
    | 'E' :: r =>
      let (eneg, r2) := splitSign r
      let (ds, r3) := splitDigits r2
      if ds.isEmpty || !r3.isEmpty then Option.none
      else some (if eneg then signed / (10 : Rat) ^ digitsToNat ds
                 else signed * (10 : Rat) ^ digitsToNat ds)
    | _ => Option.none

/-- Python `int(s)` on a string. -/
def pyIntOfString (s : String) : Option Int :=
  let cs := stripChars s.data
  let (neg, cs2) := splitSign cs
  let (ds, rest) := splitDigits cs2
  if ds.isEmpty || !rest.isEmpty then Option.none
  else some (if neg then -(digitsToNat ds : Int) else (digitsToNat ds : Int))

/-- Python `float(v)`: `some` the numeric value, `Option.none` when the call
raises `ValueError` / `TypeError`. -/
def pyFloat : PyVal → Option Rat
  | .float q => some q
  | .int n => some (n : Rat)
  | .bool b => some (if b then 1 else 0)
  | .str s => pyFloatOfString s
  | .none => Option.none

/-- Python `int(v)`: `some` the integer, `Option.none` when the call raises.
`int` truncates a float toward zero. -/
def pyInt : PyVal → Option Int
  | .int n => some n
  | .bool b => some (if b then 1 else 0)
  | .float q => some (if 0 ≤ q then ⌊q⌋ else ⌈q⌉)
  | .str s => pyIntOfString s
  | .none => Option.none

/-- `EpnBzPartner._extract_amount`: `data.get(field, 0)`, mapping `None`,
`''`, and unparsable values to `0.0`. -/
def extract_amount (data : Dict) (field : String) : Rat :=
  let value := pyGetD data field (.int 0)
  if value = .none || value = .str "" then 0
  else (pyFloat value).getD 0

/-- `EpnBzPartner._extract_int`: `data.get(field)`, mapping `None`, `''`,
and unparsable values to `None`. -/
def extract_int (data : Dict) (field : String) : Option Int :=
  let value := pyGet data field
  if value = .none || value = .str "" then Option.none
  else pyInt value

/-- An HTTP error response (`HTTPException(status_code, detail)`). -/
structure HTTPError where
  status_code : Nat
  detail : String
deriving DecidableEq, Repr

/-- `EpnBzPartner._normalize_order_status`.  A truthy non-string raises
`AttributeError` at `status.lower()`, modeled as `.error ()`; `process_data`
turns that raise into a 400. -/
def normalize_order_status (status : PyVal) : Except Unit String :=
  if !status.truthy then .ok "unknown"
  else
    match status with
    | .str s =>
      let status_lower := pyLower s
      if status_lower = "waiting" then .ok "waiting"
      else if status_lower = "pending" then .ok "pending"
      else if status_lower = "completed" || status_lower = "confirmed"
           || status_lower = "approved" then .ok "completed"
      else if status_lower = "rejected" || status_lower = "cancelled"
           || status_lower = "canceled" || status_lower = "declined" then .ok "rejected"
      else .ok status_lower
    | _ => .error ()

/-- `EpnBzPartner._determine_event_type`. -/
def determine_event_type (order_status : String) : String :=
  if order_status = "waiting" then "order.created"
  else if order_status = "pending" then "order.pending"
  else if order_status = "completed" then "order.completed"
  else if order_status = "rejected" then "order.rejected"
  else "order.unknown"

/-- The normalized payload built by `EpnBzPartner.process_data` (the Python
dict is modeled as a structure since all readers access fixed keys). -/
structure ProcessedData where
  partner : String
  event_type : String
  click_id : PyVal
  order_number : PyVal
  uniq_id : PyVal
  order_status : String
  offer_name : PyVal
  offer_type : PyVal
  offer_id : PyVal
  type_id : Option Int
  sub : PyVal
  sub2 : PyVal
  sub3 : PyVal
  sub4 : PyVal
  sub5 : PyVal
  revenue : Rat
  commission_fee : Rat
  currency : PyVal
  ip : PyVal
  ipv6 : PyVal
  user_agent_epn : PyVal
  click_time : PyVal
  time_of_order : PyVal
  client_ip : PyVal
  user_agent : PyVal
  raw_data : Dict
deriving DecidableEq, Repr

/-- `EpnBzPartner.process_data`: required-field checks, status
normalization, and field coercion. -/
def process_data (data : Dict) : Except HTTPError ProcessedData :=
  if !(pyGet data "click_id").truthy then
    .error ⟨400, "Missing required field: click_id"⟩
  else if !(pyGet data "order_number").truthy then
    .error ⟨400, "Missing required field: order_number"⟩
  else
    match normalize_order_status (pyGet data "order_status") with
    | .error _ => .error ⟨400, "Failed to process webhook data"⟩
    | .ok order_status =>
      .ok {
        partner := "epn_bz"
        event_type := determine_event_type order_status
        click_id := pyGet data "click_id"
        order_number := pyGet data "order_number"
        uniq_id := pyGetD data "uniq_id"
          (.str ("gen_" ++ (pyGet data "order_number").pyStr ++ "_" ++ (pyGet data "click_id").pyStr))
        order_status := order_status
        offer_name := pyGet data "offer_name"
        offer_type := pyGet data "offer_type"
        offer_id := pyGet data "offer_id"
        type_id := extract_int data "type_id"
        sub := pyGet data "sub"
        sub2 := pyGet data "sub2"
        sub3 := pyGet data "sub3"
        sub4 := pyGet data "sub4"
        sub5 := pyGet data "sub5"
        revenue := extract_amount data "revenue"
        commission_fee := extract_amount data "commission_fee"
        currency := pyGetD data "currency" (.str "RUB")
        ip := pyGet data "ip"
        ipv6 := pyGet data "ipv6"
        user_agent_epn := pyGet data "user_agent"
        click_time := pyGet data "click_time"
        time_of_order := pyGet data "time_of_order"
        client_ip := pyGet data "_client_ip"
        user_agent := pyGet data "_user_agent"
        raw_data := data
      }

/-- Python truthiness of an optional configuration string (`os.getenv`
result): absent or empty means unconfigured. -/
def optTruthy : Option String → Bool
  | Option.none => false
  | some s => !s.isEmpty

/-- `BasePartner.verify_path_secret_token`. -/
def verify_path_secret_token (secret_token : Option String) (provided_token : String) : Bool :=
  if !optTruthy secret_token then true
  else if provided_token.isEmpty then false
  else provided_token = secret_token.getD ""

/-- `json.dumps` over the scalar payload model (string escaping of inner
quotes is not modeled; no claim depends on the rendering). -/
def dumpVal : PyVal → String
  | .str s => "\"" ++ s ++ "\""
  | .int n => toString n
  | .float q => toString q
  | .bool b => if b then "true" else "false"
  | .none => "null"

/-- `json.dumps` of a payload dict. -/
def dumps (d : Dict) : String :=
  "\x7b" ++ String.intercalate ", "
    (List.map (fun p => "\"" ++ p.1 ++ "\": " ++ dumpVal p.2) d) ++ "\x7d"

/-- One stored row of the `webhook_events` table; timestamps are modeled as
abstract instants (`Nat`). -/
structure Row where
  partner : String
  event_type : String
  click_id : PyVal
  order_number : PyVal
  uniq_id : PyVal
  order_status : String
  offer_name : PyVal
  offer_type : PyVal
  offer_id : PyVal
  type_id : Option Int
  sub : PyVal
  sub2 : PyVal
  sub3 : PyVal
  sub4 : PyVal
  sub5 : PyVal
  revenue : Rat
  commission_fee : Rat
  currency : PyVal
  ip : PyVal
  ipv6 : PyVal
  user_agent_epn : PyVal
  click_time : PyVal
  time_of_order : PyVal
  client_ip : PyVal
  user_agent : PyVal
  raw_data : String
  processed_at : Nat
  created_at : Nat
  updated_at : Nat
deriving DecidableEq, Repr

/-- The unique key `unique_partner_uniq_status` = (`partner`, `uniq_id`,
`order_status`) of a stored row. -/
def rowKey (r : Row) : String × PyVal × String :=
  (r.partner, r.uniq_id, r.order_status)

/-- The conflict key carried by an incoming normalized event. -/
def eventKey (p : ProcessedData) : String × PyVal × String :=
  (p.partner, p.uniq_id, p.order_status)

/-- The fresh row built by the `INSERT` arm of `save_webhook_event`'s SQL:
every bound column from the event, all three timestamps set to `now` by the
column defaults. -/
def newRow (p : ProcessedData) (now : Nat) : Row :=
  { partner := p.partner
    event_type := p.event_type
    click_id := p.click_id
    order_number := p.order_number
    uniq_id := p.uniq_id
    order_status := p.order_status
    offer_name := p.offer_name
    offer_type := p.offer_type
    offer_id := p.offer_id
    type_id := p.type_id
    sub := p.sub
    sub2 := p.sub2
    sub3 := p.sub3
    sub4 := p.sub4
    sub5 := p.sub5
    revenue := p.revenue
    commission_fee := p.commission_fee
    currency := p.currency
    ip := p.ip
    ipv6 := p.ipv6
    user_agent_epn := p.user_agent_epn
    click_time := p.click_time
    time_of_order := p.time_of_order
    client_ip := p.client_ip
    user_agent := p.user_agent
    raw_data := dumps p.raw_data
    processed_at := now
    created_at := now
    updated_at := now }

/-- The `ON DUPLICATE KEY UPDATE` arm of `save_webhook_event`'s SQL: exactly
the columns listed there are overwritten and `updated_at` is set to `now`;
`partner`, `click_id`, `order_number`, `uniq_id`, `order_status`,
`processed_at` and `created_at` are not in the list and keep their stored
values. -/
def updateRow (r : Row) (p : ProcessedData) (now : Nat) : Row :=
  { r with
    event_type := p.event_type
    offer_name := p.offer_name
    offer_type := p.offer_type
    offer_id := p.offer_id
    type_id := p.type_id
    sub := p.sub
    sub2 := p.sub2
    sub3 := p.sub3
    sub4 := p.sub4
    sub5 := p.sub5
    revenue := p.revenue
    commission_fee := p.commission_fee
    currency := p.currency
    ip := p.ip
    ipv6 := p.ipv6
    user_agent_epn := p.user_agent_epn
    click_time := p.click_time
    time_of_order := p.time_of_order
    client_ip := p.client_ip
    user_agent := p.user_agent
    raw_data := dumps p.raw_data
    updated_at := now }

/-- MySQL semantics of the `INSERT ... ON DUPLICATE KEY UPDATE` statement of
`save_webhook_event` against the table state: a row whose unique key
collides is updated in place, otherwise a fresh row is appended. -/
def upsert (table : List Row) (p : ProcessedData) (now : Nat) : List Row :=
  if table.any (fun r => decide (rowKey r = eventKey p)) then
    table.map (fun r => if rowKey r = eventKey p then updateRow r p now else r)
  else
    table ++ [newRow p now]

/-- SMTP settings read from the environment by `database.py`. -/
structure EmailSettings where
  smtp_username : Option String
  smtp_password : Option String
  alert_email : Option String
deriving DecidableEq, Repr

/-- `all([SMTP_USERNAME, SMTP_PASSWORD, ALERT_EMAIL])`. -/
def emailConfigured (cfg : EmailSettings) : Bool :=
  optTruthy cfg.smtp_username && optTruthy cfg.smtp_password && optTruthy cfg.alert_email

/-- The condition of the SMTP transport while a notification is attempted. -/
inductive SmtpOutcome where
  | delivered
  | unreachable (msg : String)
deriving DecidableEq, Repr

/-- `database.send_error_email`: skips (returning `false`) when settings are
incomplete, returns `false` when the transport fails (the body is wrapped in
a blanket `except Exception`, so the call never raises), `true` on delivery. -/
def send_error_email (cfg : EmailSettings) (smtp : SmtpOutcome)
    (subject : String) (error_message : String) : Bool :=
  if !emailConfigured cfg then false
  else
    match smtp with
    | .delivered => true
    | .unreachable _ => false

/-- An alert attempt recorded by the model: the arguments passed to
`send_error_email`, the attached webhook data, and the boolean it returned. -/
structure SentAlert where
  subject : String
  error_message : String
  webhook_data : Option ProcessedData
  delivered : Bool
deriving DecidableEq, Repr

/-- How the database behaves for one `save_webhook_event` call: success, or
a raise classified by `get_db_connection` / the driver. -/
inductive DbResult where
  | ok
  | connFailure (msg : String)
  | opFailure (msg : String)
  | unexpectedFailure (msg : String)
deriving DecidableEq, Repr

/-- The exception (if any) escaping `save_webhook_event`. -/
inductive DbErr where
  | connectionError (msg : String)
  | operationError (msg : String)
  | unexpectedError (msg : String)
deriving DecidableEq, Repr

/-- Python's `needle in hay` substring test. -/
def containsSub (needle hay : String) : Bool :=
  charsHaveSub needle.data hay.data

/-- `database.save_webhook_event`'s error-handling control flow, with the
database behavior abstracted as `db`.  Returns the alerts attempted and
either `true` (saved, or benign duplicate absorbed) or the raised error.
Note the alert for an operation error is attempted *before* the duplicate
check. -/
def save_webhook_event (cfg : EmailSettings) (smtp : SmtpOutcome)
    (db : DbResult) (data : ProcessedData) : List SentAlert × Except DbErr Bool :=
  match db with
  | .ok => ([], .ok true)
  | .connFailure m =>
    ([⟨"Database Connection Error", m, some data,
       send_error_email cfg smtp "Database Connection Error" m⟩],
     .error (.connectionError m))
  | .opFailure m =>
    ([⟨"Database Operation Error", m, some data,
       send_error_email cfg smtp "Database Operation Error" m⟩],
     if containsSub "Duplicate entry" m then .ok true else .error (.operationError m))
  | .unexpectedFailure m =>
    ([⟨"Unexpected Database Error", m, some data,
       send_error_email cfg smtp "Unexpected Database Error" m⟩],
     .error (.unexpectedError m))

/-- The JSON body returned on the 200 paths of the processor; the duplicate
path omits the revenue fields. -/
structure Response where
  status : String
  partner : String
  click_id : PyVal
  uniq_id : PyVal
  order_status : String
  revenue : Option Rat
  commission_fee : Option Rat
  message : String
  database_status : String
deriving DecidableEq, Repr

/-- The success body of `process_webhook_with_path_secret`. -/
def successResponse (p : ProcessedData) : Response :=
  { status := "success"
    partner := "epn_bz"
    click_id := p.click_id
    uniq_id := p.uniq_id
    order_status := p.order_status
    revenue := some p.revenue
    commission_fee := some p.commission_fee
    message := "EPN.bz webhook processed and saved successfully"
    database_status := "healthy" }

/-- The duplicate-handled body of `process_webhook_with_path_secret`. -/
def duplicateResponse (p : ProcessedData) : Response :=
  { status := "success"
    partner := "epn_bz"
    click_id := p.click_id
    uniq_id := p.uniq_id
    order_status := p.order_status
    revenue := Option.none
    commission_fee := Option.none
    message := "Duplicate webhook - already processed"
    database_status := "duplicate_handled" }

/-- Side effects of one request observed by the model. -/
structure Trace where
  parse_attempted : Bool
  save_attempts : List ProcessedData
  alerts : List SentAlert
deriving DecidableEq, Repr

/-- The trace of a request stopped before the partner is invoked. -/
def Trace.empty : Trace :=
  { parse_attempted := false, save_attempts := [], alerts := [] }

/-- The post-authentication tail of
`WebhookProcessor.process_webhook_with_path_secret`: partner lookup, partner
token verification (`EpnBzPartner.validate_request` always succeeds and is
not modeled), parse, normalize, persist, response mapping. -/
def handle_authenticated (partner_secret : Option String) (partners : List String)
    (secret_token : String) (parse_result : Except HTTPError Dict)
    (cfg : EmailSettings) (smtp : SmtpOutcome) (db : DbResult) :
    Except HTTPError Response × Trace :=
  if !partners.contains "epn_bz" then
    (.error ⟨404, "Partner epn_bz not supported"⟩, Trace.empty)
  else if !verify_path_secret_token partner_secret secret_token then
    (.error ⟨401, "Token verification failed"⟩, Trace.empty)
  else
    match parse_result with
    | .error e => (.error e, { parse_attempted := true, save_attempts := [], alerts := [] })
    | .ok raw_data =>
      match process_data raw_data with
      | .error e => (.error e, { parse_attempted := true, save_attempts := [], alerts := [] })
      | .ok processed_data =>
        let (alerts, result) := save_webhook_event cfg smtp db processed_data
        let tr : Trace :=
          { parse_attempted := true, save_attempts := [processed_data], alerts := alerts }
        match result with
        | .ok _ => (.ok (successResponse processed_data), tr)
        | .error (.connectionError _) =>
          (.error ⟨503, "Database temporarily unavailable, please retry later"⟩, tr)
        | .error (.operationError m) =>
          if containsSub "Duplicate entry" m then (.ok (duplicateResponse processed_data), tr)
          else (.error ⟨503, "Database operation error, please retry later"⟩, tr)
        | .error (.unexpectedError _) =>
          (.error ⟨500, "Internal server error"⟩, tr)

/-- `WebhookProcessor.process_webhook_with_path_secret`: the two secret
checks guard everything else. -/
def process_webhook_with_path_secret (processor_secret : Option String)
    (partner_secret : Option String) (partners : List String)
    (secret_token : String) (parse_result : Except HTTPError Dict)
    (cfg : EmailSettings) (smtp : SmtpOutcome) (db : DbResult) :
    Except HTTPError Response × Trace :=
  if !optTruthy processor_secret then
    (.error ⟨500, "Service configuration error"⟩, Trace.empty)
  else if secret_token ≠ processor_secret.getD "" then
    (.error ⟨401, "Invalid secret token"⟩, Trace.empty)
  else
    handle_authenticated partner_secret partners secret_token parse_result cfg smtp db

/-- The deployed wiring of `main.py`: one registered partner `epn_bz`,
constructed with the same `WEBHOOK_SECRET_TOKEN` the processor checks. -/
def system_process_webhook (webhook_secret_token : Option String)
    (secret_token : String) (parse_result : Except HTTPError Dict)
    (cfg : EmailSettings) (smtp : SmtpOutcome) (db : DbResult) :
    Except HTTPError Response × Trace :=
  process_webhook_with_path_secret webhook_secret_token webhook_secret_token
    ["epn_bz"] secret_token parse_result cfg smtp db

/-- The revenue of a normalization outcome, when it succeeded. -/
def revenue_of : Except HTTPError ProcessedData → Option Rat
  | .ok p => some p.revenue
  | .error _ => Option.none

/-- The `uniq_id` of a normalization outcome, when it succeeded. -/
def uniq_of : Except HTTPError ProcessedData → Option PyVal
  | .ok p => some p.uniq_id
  | .error _ => Option.none

/-- The `database_status` marker of a pipeline outcome, when it responded 200. -/
def dbStatus_of : Except HTTPError Response → Option String
  | .ok r => some r.database_status
  | .error _ => Option.none

/-- Written to the amended claim C4's words (not from the source): empty
input yields `unknown`; otherwise the lower-cased input is mapped through
the synonym table, and an unrecognized status passes through lower-cased. -/
def amended_status (s : String) : String :=
  if s.isEmpty then "unknown"
  else if pyLower s = "waiting" then "waiting"
  else if pyLower s = "pending" then "pending"
  else if pyLower s = "completed" || pyLower s = "confirmed"
       || pyLower s = "approved" then "completed"
  else if pyLower s = "rejected" || pyLower s = "cancelled"
       || pyLower s = "canceled" || pyLower s = "declined" then "rejected"
  else pyLower s

/-- A concrete normalized event used by witnesses and counterexamples. -/
def sampleEvent : ProcessedData :=
  { partner := "epn_bz"
    event_type := "order.completed"
    click_id := .str "A"
    order_number := .str "N1"
    uniq_id := .str "U1"
    order_status := "completed"
    offer_name := .none
    offer_type := .none
    offer_id := .none
    type_id := Option.none
    sub := .none
    sub2 := .none
    sub3 := .none
    sub4 := .none
    sub5 := .none
    revenue := 10
    commission_fee := 1
    currency := .str "RUB"
    ip := .none
    ipv6 := .none
    user_agent_epn := .none
    click_time := .none
    time_of_order := .none
    client_ip := .none
    user_agent := .none
    raw_data := [] }

/-- Redelivery of the `sampleEvent` conflict key with a different
`click_id`, different amounts and different sub tag. -/
def redelivery : ProcessedData :=
  { sampleEvent with
    click_id := .str "B"
    revenue := 20
    commission_fee := 2
    sub := .str "tag" }

/-- A minimal well-formed payload. -/
def okPayload : Dict :=
  [("click_id", .str "Y"), ("order_number", .str "X")]

/-- The same payload delivered with extra noise fields. -/
def okPayloadNoisy : Dict :=
  [("order_number", .str "X"), ("sub", .str "z"), ("click_id", .str "Y")]

/-- An SMTP configuration with all settings present. -/
def fullEmailCfg : EmailSettings :=
  { smtp_username := some "u", smtp_password := some "p", alert_email := some "a@b" }

theorem extract_amount_of_absent (d : Dict) (f : String) (h : dictGet d f = Option.none) :
    extract_amount d f = 0 := by
  simp [extract_amount, pyGetD, h, pyFloat]

theorem extract_amount_of_unparsable (d : Dict) (f s : String)
    (h : dictGet d f = some (.str s)) (hu : pyFloatOfString s = Option.none) :
    extract_amount d f = 0 := by
  by_cases hs : s = ""
  · subst hs; simp [extract_amount, pyGetD, h]
  · simp [extract_amount, pyGetD, h, pyFloat, hu, hs]

theorem process_data_ok_fields (d : Dict) (p : ProcessedData)
    (h : process_data d = Except.ok p) :
    p.revenue = extract_amount d "revenue" ∧
    p.commission_fee = extract_amount d "commission_fee" ∧
    p.uniq_id = pyGetD d "uniq_id"
      (.str ("gen_" ++ (pyGet d "order_number").pyStr ++ "_" ++ (pyGet d "click_id").pyStr)) ∧
    p.click_id = pyGet d "click_id" ∧
    p.order_number = pyGet d "order_number" := by
  unfold process_data at h
  repeat' split at h
  all_goals
    first
      | exact Except.noConfusion h
      | (injection h with h; subst h; exact ⟨rfl, rfl, rfl, rfl, rfl⟩)

/-- C2: counterexample — a payload whose `revenue` is the parsable string
`"-5"` normalizes to `revenue = -5`, a negative amount: normalization does
not enforce non-negativity, it passes the parsed value through with its
sign. -/
theorem C2_counterexample :
    revenue_of (process_data [("click_id", .str "Y"), ("order_number", .str "X"),
      ("revenue", .str "-5")]) = some (-5) ∧ ¬ (0 : Rat) ≤ -5 :=
  ⟨by decide, by decide⟩

/-- C2 (amended): after normalization `revenue` and `commission_fee` are
always present and extraction never aborts — an absent key, a `None`, an
empty string, or an unparsable value all coerce to `0.0` — but a parsable
value is passed through with its sign, so a negative input yields a
negative amount. -/
theorem C2_amount_coercion (data : Dict) (field : String) :
    (dictGet data field = Option.none → extract_amount data field = 0) ∧
    (dictGet data field = some .none → extract_amount data field = 0) ∧
    (dictGet data field = some (.str "") → extract_amount data field = 0) ∧
    (∀ s : String, dictGet data field = some (.str s) → pyFloatOfString s = Option.none →
      extract_amount data field = 0) ∧
    (∀ q : Rat, dictGet data field = some (.float q) → extract_amount data field = q) ∧
    (∀ p : ProcessedData, process_data data = Except.ok p →
      p.revenue = extract_amount data "revenue" ∧
      p.commission_fee = extract_amount data "commission_fee") := by
  refine ⟨fun h => extract_amount_of_absent data field h,
          fun h => ?_, fun h => ?_,
          fun s h hu => extract_amount_of_unparsable data field s h hu,
          fun q h => ?_,
          fun p h => ⟨(process_data_ok_fields data p h).1,
                      (process_data_ok_fields data p h).2.1⟩⟩
  · simp [extract_amount, pyGetD, h]
  · simp [extract_amount, pyGetD, h]
  · simp [extract_amount, pyGetD, h, pyFloat]

/-- C2: witness — the amended coercion facts evaluated on concrete
payloads. -/
theorem C2_witness :
    extract_amount [("click_id", .str "Y")] "revenue" = 0 ∧
    extract_amount [("revenue", .none)] "revenue" = 0 ∧
    extract_amount [("revenue", .str "")] "revenue" = 0 ∧
    extract_amount [("revenue", .str "abc")] "revenue" = 0 ∧
    extract_amount [("revenue", .float (-5))] "revenue" = -5 := by
  refine ⟨(C2_amount_coercion [("click_id", .str "Y")] "revenue").1 (by decide),
          (C2_amount_coercion [("revenue", .none)] "revenue").2.1 (by decide),
          (C2_amount_coercion [("revenue", .str "")] "revenue").2.2.1 (by decide),
          (C2_amount_coercion [("revenue", .str "abc")] "revenue").2.2.2.1 "abc" (by decide) (by decide),
          (C2_amount_coercion [("revenue", .float (-5))] "revenue").2.2.2.2.1 (-5) (by decide)⟩

/-- C4: counterexample — the input status `"foo"` normalizes to `"foo"`,
not `"unknown"`: the fallback branch returns the lower-cased input, so the
normalized status is not confined to the claimed enum. -/
theorem C4_counterexample :
    normalize_order_status (.str "foo") = .ok "foo" ∧
    "foo" ∉ (["waiting", "pending", "completed", "rejected", "unknown"] : List String) :=
  ⟨rfl, by decide⟩

/-- C4 (amended): status normalization is case-insensitive and maps through
the synonym table (confirmed/approved→completed,
cancelled/canceled/declined→rejected), with an empty status normalizing to
`"unknown"`; but an unrecognized non-empty status normalizes to its
lower-cased self, which can fall outside the claimed enum.  The derived
event type follows the table, with `order.unknown` for any normalized
status outside the four known ones. -/
theorem C4_status_table (s t : String) :
    normalize_order_status (.str s) = .ok (amended_status s) ∧
    (¬s.isEmpty → ¬t.isEmpty → pyLower s = pyLower t →
      normalize_order_status (.str s) = normalize_order_status (.str t)) ∧
    (determine_event_type "waiting" = "order.created" ∧
     determine_event_type "pending" = "order.pending" ∧
     determine_event_type "completed" = "order.completed" ∧
     determine_event_type "rejected" = "order.rejected" ∧
     determine_event_type "unknown" = "order.unknown") ∧
    (amended_status s ∉ (["waiting", "pending", "completed", "rejected"] : List String) →
      determine_event_type (amended_status s) = "order.unknown") := by
  refine ⟨?_, ?_, ⟨rfl, rfl, rfl, rfl, rfl⟩, ?_⟩
  · by_cases he : s.isEmpty <;>
      simp [normalize_order_status, amended_status, PyVal.truthy, he] <;>
      split_ifs <;> simp_all
  · intro hs ht hl
    simp [normalize_order_status, PyVal.truthy, hs, ht, hl]
  · intro hmem
    simp only [List.mem_cons, List.not_mem_nil, or_false, not_or] at hmem
    obtain ⟨h1, h2, h3, h4⟩ := hmem
    simp [determine_event_type, h1, h2, h3, h4]

/-- C4: witness — the synonym table, case-insensitivity, and the
out-of-enum fallback evaluated on concrete statuses. -/
theorem C4_witness :
    normalize_order_status (.str "CONFIRMED") = .ok (amended_status "CONFIRMED") ∧
    normalize_order_status (.str "Approved") = normalize_order_status (.str "approved") ∧
    determine_event_type (amended_status "foo") = "order.unknown" :=
  ⟨(C4_status_table "CONFIRMED" "CONFIRMED").1,
   (C4_status_table "Approved" "approved").2.1 (by decide) (by decide) (by decide),
   (C4_status_table "foo" "foo").2.2.2 (by decide)⟩

/-- C7: counterexample — a payload whose `revenue` is the unparsable string
`"abc"` is still rejected with a 400 when another malformed optional field
is present: a truthy non-string `order_status` (here the number `1`) makes
`status.lower()` raise, and the blanket handler turns the raise into
`400 Failed to process webhook data`.  So neither does every such payload
succeed, nor do malformed optional fields never abort normalization. -/
theorem C7_counterexample :
    pyFloatOfString "abc" = Option.none ∧
    process_data [("click_id", .str "Y"), ("order_number", .str "X"),
      ("order_status", .int 1), ("revenue", .str "abc")] =
      .error ⟨400, "Failed to process webhook data"⟩ :=
  ⟨by decide, rfl⟩

/-- C7 (amended): in a payload whose required fields are present and whose
`order_status` does not itself abort normalization, an unparsable
`revenue` string coerces to `0.0` and the payload still normalizes
successfully (no 400). -/
theorem C7_unparsable_revenue (d : Dict) (s st : String)
    (hc : (pyGet d "click_id").truthy = true)
    (ho : (pyGet d "order_number").truthy = true)
    (hst : normalize_order_status (pyGet d "order_status") = .ok st)
    (hr : dictGet d "revenue" = some (.str s))
    (hu : pyFloatOfString s = Option.none) :
    revenue_of (process_data d) = some 0 := by
  simp only [process_data, hc, ho, hst, Bool.not_true, Bool.false_eq_true, if_false,
    revenue_of]
  simp [revenue_of, extract_amount_of_unparsable d "revenue" s hr hu]

/-- C7: witness — a well-formed payload with `revenue: "abc"` normalizes
with `revenue = 0`. -/
theorem C7_witness :
    revenue_of (process_data [("click_id", .str "Y"), ("order_number", .str "X"),
      ("revenue", .str "abc")]) = some 0 :=
  C7_unparsable_revenue [("click_id", .str "Y"), ("order_number", .str "X"),
    ("revenue", .str "abc")] "abc" "unknown" (by decide) (by decide) rfl (by decide) (by decide)

/-- C8: the synthesized `uniq_id` is a deterministic function of
(`order_number`, `click_id`): two successful normalizations of payloads
that both omit `uniq_id` and agree on those two fields produce the same
`uniq_id`, namely `gen_{order_number}_{click_id}`. -/
theorem C8_uniq_id_synthesis (d1 d2 : Dict) (p1 p2 : ProcessedData)
    (h1 : dictGet d1 "uniq_id" = Option.none)
    (h2 : dictGet d2 "uniq_id" = Option.none)
    (ho : pyGet d1 "order_number" = pyGet d2 "order_number")
    (hc : pyGet d1 "click_id" = pyGet d2 "click_id")
    (e1 : process_data d1 = Except.ok p1)
    (e2 : process_data d2 = Except.ok p2) :
    p1.uniq_id = p2.uniq_id ∧
    p1.uniq_id = .str ("gen_" ++ (pyGet d1 "order_number").pyStr ++ "_"
      ++ (pyGet d1 "click_id").pyStr) := by
  have f1 := (process_data_ok_fields d1 p1 e1).2.2.1
  have f2 := (process_data_ok_fields d2 p2 e2).2.2.1
  rw [pyGetD, h1] at f1
  rw [pyGetD, h2] at f2
  simp only [Option.getD] at f1 f2
  refine ⟨?_, f1⟩
  rw [f1, f2, ho, hc]

/-- C8: witness — two payload deliveries omitting `uniq_id` but agreeing on
`order_number` and `click_id` synthesize the same id. -/
theorem C8_witness :
    uniq_of (process_data okPayload) = uniq_of (process_data okPayloadNoisy) ∧
    uniq_of (process_data okPayload) = some (.str "gen_X_Y") := by
  obtain ⟨p1, e1⟩ : ∃ p, process_data okPayload = Except.ok p := ⟨_, rfl⟩
  obtain ⟨p2, e2⟩ : ∃ p, process_data okPayloadNoisy = Except.ok p := ⟨_, rfl⟩
  have h := C8_uniq_id_synthesis okPayload okPayloadNoisy p1 p2
    (by decide) (by decide) (by decide) (by decide) e1 e2
  rw [e1, e2]
  simp only [uniq_of]
  exact ⟨by rw [h.1], by rw [h.2]; rfl⟩

/-- C10: a required field that is present but falsy (empty string, `0`,
`false`, `null`, …) is treated exactly like a missing field: the request is
rejected with a 400 naming that field. -/
theorem C10_falsy_required (d : Dict) (v : PyVal) (hv : v.truthy = false) :
    (dictGet d "click_id" = some v →
      process_data d = .error ⟨400, "Missing required field: click_id"⟩) ∧
    (dictGet d "order_number" = some v → (pyGet d "click_id").truthy = true →
      process_data d = .error ⟨400, "Missing required field: order_number"⟩) := by
  constructor
  · intro h
    have hg : pyGet d "click_id" = v := by simp [pyGet, h]
    simp [process_data, hg, hv]
  · intro h hc
    have hg : pyGet d "order_number" = v := by simp [pyGet, h]
    simp [process_data, hg, hv, hc]

/-- C10: witness — payloads carrying `click_id: ""` and `order_number: 0`
are rejected with the 400 naming the respective field. -/
theorem C10_witness :
    process_data [("click_id", .str ""), ("order_number", .str "X")] =
      .error ⟨400, "Missing required field: click_id"⟩ ∧
    process_data [("click_id", .str "Y"), ("order_number", .int 0)] =
      .error ⟨400, "Missing required field: order_number"⟩ :=
  ⟨(C10_falsy_required [("click_id", .str ""), ("order_number", .str "X")]
      (.str "") (by decide)).1 (by decide),
   (C10_falsy_required [("click_id", .str "Y"), ("order_number", .int 0)]
      (.int 0) (by decide)).2 (by decide) (by decide)⟩

/-- C1: counterexample — redelivery of the `sampleEvent` conflict key with
a different `click_id` (a non-key field) leaves the stored `click_id`
unchanged: `click_id` and `order_number` are not in the
`ON DUPLICATE KEY UPDATE` list, so not all non-key fields are updated on a
collision. -/
theorem C1_counterexample :
    rowKey (newRow sampleEvent 5) = eventKey redelivery ∧
    redelivery.click_id = .str "B" ∧
    upsert [newRow sampleEvent 5] redelivery 7 =
      [updateRow (newRow sampleEvent 5) redelivery 7] ∧
    (updateRow (newRow sampleEvent 5) redelivery 7).click_id = .str "A" :=
  ⟨by decide, rfl, by decide, by decide⟩

/-- C1 (amended): `upsert` inserts a fresh row keyed by
(`partner`, `uniq_id`, `order_status`) when no stored row collides; on a
collision it updates in place the non-key fields *except* `click_id` and
`order_number` (namely `event_type`, the optional pass-through fields, the
amounts, `currency`, the transport metadata and the raw payload) and bumps
`updated_at`, while `created_at`, `processed_at`, the conflict key,
`click_id` and `order_number` are left unchanged. -/
theorem C1_upsert_frame (table : List Row) (r : Row) (p : ProcessedData) (now : Nat) :
    ((∀ q ∈ table, rowKey q ≠ eventKey p) →
      upsert table p now = table ++ [newRow p now]) ∧
    (rowKey (newRow p now) = eventKey p ∧
     (newRow p now).created_at = now ∧ (newRow p now).updated_at = now) ∧
    (r ∈ table → rowKey r = eventKey p →
      upsert table p now =
        table.map (fun q => if rowKey q = eventKey p then updateRow q p now else q)) ∧
    ((updateRow r p now).created_at = r.created_at ∧
     (updateRow r p now).processed_at = r.processed_at ∧
     rowKey (updateRow r p now) = rowKey r ∧
     (updateRow r p now).click_id = r.click_id ∧
     (updateRow r p now).order_number = r.order_number ∧
     (updateRow r p now).updated_at = now ∧
     (updateRow r p now).event_type = p.event_type ∧
     (updateRow r p now).offer_name = p.offer_name ∧
     (updateRow r p now).offer_type = p.offer_type ∧
     (updateRow r p now).offer_id = p.offer_id ∧
     (updateRow r p now).type_id = p.type_id ∧
     (updateRow r p now).sub = p.sub ∧
     (updateRow r p now).sub2 = p.sub2 ∧
     (updateRow r p now).sub3 = p.sub3 ∧
     (updateRow r p now).sub4 = p.sub4 ∧
     (updateRow r p now).sub5 = p.sub5 ∧
     (updateRow r p now).revenue = p.revenue ∧
     (updateRow r p now).commission_fee = p.commission_fee ∧
     (updateRow r p now).currency = p.currency ∧
     (updateRow r p now).ip = p.ip ∧
     (updateRow r p now).ipv6 = p.ipv6 ∧
     (updateRow r p now).user_agent_epn = p.user_agent_epn ∧
     (updateRow r p now).click_time = p.click_time ∧
     (updateRow r p now).time_of_order = p.time_of_order ∧
     (updateRow r p now).client_ip = p.client_ip ∧
     (updateRow r p now).user_agent = p.user_agent ∧
     (updateRow r p now).raw_data = dumps p.raw_data) := by
  refine ⟨fun hall => ?_, ⟨rfl, rfl, rfl⟩, fun hr hk => ?_, ?_⟩
  · have hany : table.any (fun q => decide (rowKey q = eventKey p)) = false := by
      simp only [List.any_eq_false, decide_eq_true_eq]
      exact hall
    simp [upsert, hany]
  · have hany : table.any (fun q => decide (rowKey q = eventKey p)) = true := by
      simp only [List.any_eq_true, decide_eq_true_eq]
      exact ⟨r, hr, hk⟩
    simp [upsert, hany]
  · exact ⟨rfl, rfl, rfl, rfl, rfl, rfl, rfl, rfl, rfl, rfl, rfl, rfl, rfl, rfl,
      rfl, rfl, rfl, rfl, rfl, rfl, rfl, rfl, rfl, rfl, rfl, rfl, rfl⟩

/-- C1: witness — the insert arm on an empty table and the update arm on a
colliding redelivery, evaluated concretely. -/
theorem C1_witness :
    upsert [] sampleEvent 3 = [] ++ [newRow sampleEvent 3] ∧
    upsert [newRow sampleEvent 3] redelivery 7 =
      [newRow sampleEvent 3].map
        (fun q => if rowKey q = eventKey redelivery then updateRow q redelivery 7 else q) :=
  ⟨(C1_upsert_frame [] (newRow sampleEvent 3) sampleEvent 3).1 (by simp),
   (C1_upsert_frame [newRow sampleEvent 3] (newRow sampleEvent 3) redelivery 7).2.2.1
     (by simp) (by decide)⟩

/-- C3: counterexample — a store failure classified as a benign duplicate
is absorbed inside `save_webhook_event`, but only after an operator alert
was already attempted, and the request then completes through the ordinary
success path: the body says `database_status = "healthy"`, not
`"duplicate_handled"`, and one alert was sent for it. -/
theorem C3_counterexample :
    dbStatus_of (system_process_webhook (some "S") "S" (.ok okPayload) fullEmailCfg
      .delivered (.opFailure "Duplicate entry 1-2 for key")).1 = some "healthy" ∧
    (system_process_webhook (some "S") "S" (.ok okPayload) fullEmailCfg
      .delivered (.opFailure "Duplicate entry 1-2 for key")).2.alerts.map
        (fun a => (a.subject, a.delivered)) = [("Database Operation Error", true)] ∧
    "healthy" ≠ "duplicate_handled" :=
  ⟨rfl, rfl, by decide⟩

/-- C3 (amended): a store operation failure whose message marks a benign
duplicate is absorbed by the store layer (`save_webhook_event` returns
success), so the request completes with a 200 whose body is the ordinary
success body marked `database_status = "healthy"` — the processor's
`duplicate_handled` branch is unreachable through the store — and exactly
one operator alert is attempted for it before the absorption. -/
theorem C3_duplicate_flow (secret : String) (hs : ¬secret.isEmpty) (d : Dict)
    (p : ProcessedData) (hp : process_data d = Except.ok p)
    (cfg : EmailSettings) (smtp : SmtpOutcome) (m : String)
    (hm : containsSub "Duplicate entry" m = true) :
    system_process_webhook (some secret) secret (.ok d) cfg smtp (.opFailure m) =
      (.ok (successResponse p),
       { parse_attempted := true, save_attempts := [p],
         alerts := [⟨"Database Operation Error", m, some p,
                     send_error_email cfg smtp "Database Operation Error" m⟩] }) ∧
    (successResponse p).database_status = "healthy" := by
  constructor
  · simp [system_process_webhook, process_webhook_with_path_secret, handle_authenticated,
      verify_path_secret_token, optTruthy, hs, hp, save_webhook_event, hm]
  · rfl

/-- C3: witness — the duplicate flow evaluated on a concrete payload and a
concrete duplicate-entry message: 200 marked healthy, one alert attempted. -/
theorem C3_witness :
    dbStatus_of (system_process_webhook (some "S") "S" (.ok okPayload) fullEmailCfg
      .delivered (.opFailure "Duplicate entry 1-2 for key")).1 = some "healthy" ∧
    (system_process_webhook (some "S") "S" (.ok okPayload) fullEmailCfg
      .delivered (.opFailure "Duplicate entry 1-2 for key")).2.alerts.length = 1 := by
  obtain ⟨p, hp⟩ : ∃ p, process_data okPayload = Except.ok p := ⟨_, rfl⟩
  have h := (C3_duplicate_flow "S" (by decide) okPayload p hp fullEmailCfg .delivered
    "Duplicate entry 1-2 for key" (by decide)).1
  rw [h]
  exact ⟨rfl, rfl⟩

/-- C5: a payload missing `click_id` — or missing `order_number` when
`click_id` is present — is rejected with a 400 naming the missing field,
and no store write and no alert happen for that request. -/
theorem C5_missing_required (secret : String) (hs : ¬secret.isEmpty) (d : Dict)
    (cfg : EmailSettings) (smtp : SmtpOutcome) (db : DbResult) :
    (dictGet d "click_id" = Option.none →
      system_process_webhook (some secret) secret (.ok d) cfg smtp db =
        (.error ⟨400, "Missing required field: click_id"⟩,
         { parse_attempted := true, save_attempts := [], alerts := [] })) ∧
    ((pyGet d "click_id").truthy = true → dictGet d "order_number" = Option.none →
      system_process_webhook (some secret) secret (.ok d) cfg smtp db =
        (.error ⟨400, "Missing required field: order_number"⟩,
         { parse_attempted := true, save_attempts := [], alerts := [] })) := by
  constructor
  · intro h
    have hg : pyGet d "click_id" = .none := by simp [pyGet, h]
    simp [system_process_webhook, process_webhook_with_path_secret, handle_authenticated,
      verify_path_secret_token, optTruthy, hs, process_data, hg, PyVal.truthy]
  · intro hc h
    have hg : pyGet d "order_number" = .none := by simp [pyGet, h]
    have hn : PyVal.truthy .none = false := rfl
    simp [system_process_webhook, process_webhook_with_path_secret, handle_authenticated,
      verify_path_secret_token, optTruthy, hs, process_data, hg, hc, hn]

/-- C5: witness — concrete payloads missing a required field are rejected
with the naming 400 and an empty effect trace. -/
theorem C5_witness :
    system_process_webhook (some "S") "S" (.ok [("order_number", .str "X")])
        fullEmailCfg .delivered .ok =
      (.error ⟨400, "Missing required field: click_id"⟩,
       { parse_attempted := true, save_attempts := [], alerts := [] }) ∧
    system_process_webhook (some "S") "S" (.ok [("click_id", .str "Y")])
        fullEmailCfg .delivered .ok =
      (.error ⟨400, "Missing required field: order_number"⟩,
       { parse_attempted := true, save_attempts := [], alerts := [] }) :=
  ⟨(C5_missing_required "S" (by decide) [("order_number", .str "X")]
      fullEmailCfg .delivered .ok).1 (by decide),
   (C5_missing_required "S" (by decide) [("click_id", .str "Y")]
      fullEmailCfg .delivered .ok).2 (by decide) (by decide)⟩

/-- C6: with a configured secret, a mismatching path token is rejected with
401 before any parsing or store write; with no configured secret every
request is rejected with 500; an exactly matching token passes both the
processor's check and the partner's token verification and the request
proceeds to the post-authentication pipeline. -/
theorem C6_secret_gate (secret : Option String) (tok : String)
    (parse_result : Except HTTPError Dict) (cfg : EmailSettings)
    (smtp : SmtpOutcome) (db : DbResult) :
    (optTruthy secret = false →
      system_process_webhook secret tok parse_result cfg smtp db =
        (.error ⟨500, "Service configuration error"⟩, Trace.empty)) ∧
    (optTruthy secret = true → tok ≠ secret.getD "" →
      system_process_webhook secret tok parse_result cfg smtp db =
        (.error ⟨401, "Invalid secret token"⟩, Trace.empty)) ∧
    (optTruthy secret = true → tok = secret.getD "" →
      system_process_webhook secret tok parse_result cfg smtp db =
        handle_authenticated secret ["epn_bz"] tok parse_result cfg smtp db ∧
      verify_path_secret_token secret tok = true) ∧
    (Trace.empty.parse_attempted = false ∧
     Trace.empty.save_attempts = ([] : List ProcessedData)) := by
  refine ⟨fun h => ?_, fun h1 h2 => ?_, fun h1 h2 => ⟨?_, ?_⟩, rfl, rfl⟩
  · simp [system_process_webhook, process_webhook_with_path_secret, h]
  · simp [system_process_webhook, process_webhook_with_path_secret, h1, h2]
  · simp [system_process_webhook, process_webhook_with_path_secret, h1, h2]
  · cases secret with
    | none => simp [optTruthy] at h1
    | some s =>
      simp only [Option.getD] at h2
      subst h2
      simp only [optTruthy] at h1
      simp [verify_path_secret_token, optTruthy, h1]

/-- C6: witness — wrong token 401, missing configuration 500, matching
token proceeds, on concrete inputs. -/
theorem C6_witness :
    system_process_webhook (some "ABC123") "WRONGTOKEN" (.ok okPayload)
        fullEmailCfg .delivered .ok =
      (.error ⟨401, "Invalid secret token"⟩, Trace.empty) ∧
    system_process_webhook Option.none "ABC123" (.ok okPayload)
        fullEmailCfg .delivered .ok =
      (.error ⟨500, "Service configuration error"⟩, Trace.empty) ∧
    system_process_webhook (some "ABC123") "ABC123" (.ok okPayload)
        fullEmailCfg .delivered .ok =
      handle_authenticated (some "ABC123") ["epn_bz"] "ABC123" (.ok okPayload)
        fullEmailCfg .delivered .ok :=
  ⟨(C6_secret_gate (some "ABC123") "WRONGTOKEN" (.ok okPayload)
      fullEmailCfg .delivered .ok).2.1 (by decide) (by decide),
   (C6_secret_gate Option.none "ABC123" (.ok okPayload)
      fullEmailCfg .delivered .ok).1 (by decide),
   ((C6_secret_gate (some "ABC123") "ABC123" (.ok okPayload)
      fullEmailCfg .delivered .ok).2.2.1 (by decide) (by decide)).1⟩

/-- C9: `send_error_email` is total (it cannot raise), returns `false` when
the SMTP settings are incomplete or the transport is unreachable, and its
outcome never influences the HTTP result of a request: the response
component of the pipeline is identical under any alert configuration and
any transport condition. -/
theorem C9_notify_best_effort (cfg cfg2 : EmailSettings) (smtp smtp2 : SmtpOutcome)
    (subj msg m : String) (secret : Option String) (tok : String)
    (parse_result : Except HTTPError Dict) (db : DbResult) :
    (emailConfigured cfg = false → send_error_email cfg smtp subj msg = false) ∧
    (send_error_email cfg (.unreachable m) subj msg = false) ∧
    ((system_process_webhook secret tok parse_result cfg smtp db).1 =
     (system_process_webhook secret tok parse_result cfg2 smtp2 db).1) := by
  refine ⟨fun h => by simp [send_error_email, h], ?_, ?_⟩
  · cases hc : emailConfigured cfg <;> simp [send_error_email, hc]
  · unfold system_process_webhook process_webhook_with_path_secret
    split_ifs
    · rfl
    · rfl
    · unfold handle_authenticated
      split_ifs
      · rfl
      · rfl
      · cases parse_result with
        | error e => rfl
        | ok raw =>
          cases hp : process_data raw with
          | error e => simp [hp]
          | ok p =>
            simp only [hp]
            cases db with
            | ok => rfl
            | connFailure m2 => rfl
            | unexpectedFailure m2 => rfl
            | opFailure m2 =>
              by_cases hdup : containsSub "Duplicate entry" m2 = true <;>
                simp [save_webhook_event, hdup]

/-- C9: witness — an unconfigured sink returns `false`, and the HTTP
outcome of a failing save is the same under a working and a broken alert
transport. -/
theorem C9_witness :
    send_error_email ⟨Option.none, Option.none, Option.none⟩ .delivered "s" "m" = false ∧
    (system_process_webhook (some "S") "S" (.ok okPayload)
        ⟨Option.none, Option.none, Option.none⟩ .delivered (.connFailure "down")).1 =
    (system_process_webhook (some "S") "S" (.ok okPayload)
        fullEmailCfg (.unreachable "x") (.connFailure "down")).1 :=
  ⟨(C9_notify_best_effort ⟨Option.none, Option.none, Option.none⟩ fullEmailCfg
      .delivered .delivered "s" "m" "m" (some "S") "S" (.ok okPayload)
      (.connFailure "down")).1 (by decide),
   (C9_notify_best_effort ⟨Option.none, Option.none, Option.none⟩ fullEmailCfg
      .delivered (.unreachable "x") "s" "m" "m" (some "S") "S" (.ok okPayload)
      (.connFailure "down")).2.2⟩
